import Mathlib

/-!
Verification of the resilient gRPC stream client (CoreCast sample client).

The repository's source contains:
  * `index.js` (two variants): configuration loading, `toBase58` with a
    bounded cache, `createRequest` building the filter request, the stream
    listener, buffered logging and the periodic stats printer `printStats`.
  * a reconnection guide documenting the exponential-backoff reconnection
    layer (initial delay 1000 ms, max delay 60000 ms, jitter 0-1000 ms,
    max 10 attempts); the reconnection-enhanced client code itself is not
    among the source files, so the session state machine, the backoff
    policy and the error classification are modelled from the spec.

Pure functions of the source are embedded as Lean functions; the mutable
module state (the base58 cache, the stats counters, the log buffer) is
embedded as explicit state passing.
-/

/- ### Backoff policy -/

/-- Modelled from the spec: the backoff policy `delay_for` is absent from the
source files (only the reconnection guide documents it).  Formula:
`min(initial_delay * 2^attempt, max_delay) + random_jitter`, where the jitter
is drawn uniformly from `[0, jitter_bound)`; we pass the drawn jitter
explicitly (the jitter source is injectable). -/
def delay_for (initialDelay maxDelay : Nat) (attempt : Nat) (jitter : Nat) : Nat :=
  min (initialDelay * 2 ^ attempt) maxDelay + jitter

/-- Default initial reconnect delay (`INITIAL_RECONNECT_DELAY = 1000`). -/
def INITIAL_RECONNECT_DELAY : Nat := 1000

/-- Default maximum reconnect delay (`MAX_RECONNECT_DELAY = 60000`). -/
def MAX_RECONNECT_DELAY : Nat := 60000

/-- Default jitter bound: jitter is drawn from `[0, 1000)` ms. -/
def JITTER_BOUND : Nat := 1000

/-- Default maximum reconnection attempts (`MAX_RECONNECT_ATTEMPTS = 10`). -/
def MAX_RECONNECT_ATTEMPTS : Nat := 10

/- ### Error classification -/

/-- Modelled from the spec: the termination reasons the classification
function distinguishes.  The four transient transport conditions are named;
every other reason reaches the classifier as well (authentication failure,
invalid request, permission denial, or an arbitrary unrecognized reason
carried as its message text). -/
inductive TerminationReason where
  | connectionDropped
  | unavailable
  | timeout
  | reset
  | authenticationFailure
  | invalidRequest
  | permissionDenied
  | other (msg : String)
deriving DecidableEq, Repr

/-- Modelled from the spec: the closed classification result
`Retryable | Fatal`. -/
inductive Classification where
  | retryable
  | fatal
deriving DecidableEq, Repr

/-- Modelled from the spec: the error-classification function is absent from
the source files.  An error is retryable iff it signals transient transport
unavailability (connection dropped, unavailable, timeout, reset); every other
reason — including any unrecognized one — falls back to `fatal`
(fail-closed default). -/
def classify : TerminationReason → Classification
  | .connectionDropped => .retryable
  | .unavailable => .retryable
  | .timeout => .retryable
  | .reset => .retryable
  | _ => .fatal

/- ### Session state machine -/

/-- Modelled from the spec: the session states. -/
inductive SessionState where
  | idle
  | connecting
  | streaming
  | backoff
  | failed
  | stopped
deriving DecidableEq, Repr

/-- Modelled from the spec: one transport-level subscription handle, tracked
by an identifier and whether it has been terminated (cancelled or ended). -/
structure Subscr where
  ident : Nat
  terminated : Bool
deriving DecidableEq, Repr

/-- Modelled from the spec: the session record.  `subs` is the list of all
subscriptions the session has created, in creation order, each carrying its
terminated flag; `pendingDelay` is the backoff timer when one is armed;
`msgsReceived` counts messages of the current streaming period. -/
structure Session where
  state : SessionState
  attemptCount : Nat
  maxAttempts : Nat
  msgsReceived : Nat
  pendingDelay : Option Nat
  subs : List Subscr
  nextSubId : Nat
deriving DecidableEq, Repr

/-- Modelled from the spec: the events the session manager consumes:
`start`, transport open success, a failure (open failure or stream
termination) carrying its reason, a received message, reaching the minimum
sustained uptime, clean end-of-stream, backoff timer elapse, and `stop`. -/
inductive Event where
  | start
  | openSuccess
  | failure (r : TerminationReason)
  | msgReceived
  | sustainedUptime
  | cleanEnd
  | timerElapsed
  | stop
deriving DecidableEq, Repr

/-- Mark every subscription of the list terminated (cancel on teardown). -/
def terminateAll (l : List Subscr) : List Subscr :=
  l.map (fun s => { s with terminated := true })

/-- Modelled from the spec: the failure transition.  A fatal classification
immediately yields `failed`; a retryable one yields `backoff` (incrementing
`attemptCount` at entry and arming the backoff timer) while
`attemptCount < maxAttempts`, and `failed` once the budget is exhausted.
The failing subscription is cancelled in every branch. -/
def handleFailure (s : Session) (r : TerminationReason) : Session :=
  match classify r with
  | .fatal =>
      { s with state := .failed, subs := terminateAll s.subs, pendingDelay := none }
  | .retryable =>
      if s.attemptCount < s.maxAttempts then
        { s with state := .backoff,
                 attemptCount := s.attemptCount + 1,
                 subs := terminateAll s.subs,
                 pendingDelay :=
                   some (min (INITIAL_RECONNECT_DELAY * 2 ^ s.attemptCount)
                             MAX_RECONNECT_DELAY) }
      else
        { s with state := .failed, subs := terminateAll s.subs, pendingDelay := none }

/-- Modelled from the spec: the session transition function.  `failed` and
`stopped` are terminal (they absorb every event); `stop` cancels the active
subscription and the pending timer from every non-terminal state; the
remaining rows are the transitions of the spec's state machine; events that
do not apply in the current state are ignored. -/
def step (s : Session) (e : Event) : Session :=
  match s.state, e with
  | .failed, _ => s
  | .stopped, _ => s
  | _, .stop =>
      { s with state := .stopped, subs := terminateAll s.subs, pendingDelay := none }
  | .idle, .start => { s with state := .connecting }
  | .connecting, .openSuccess =>
      { s with state := .streaming,
               msgsReceived := 0,
               subs := s.subs ++ [⟨s.nextSubId, false⟩],
               nextSubId := s.nextSubId + 1 }
  | .connecting, .failure r => handleFailure s r
  | .streaming, .failure r => handleFailure s r
  | .streaming, .msgReceived =>
      { s with msgsReceived := s.msgsReceived + 1, attemptCount := 0 }
  | .streaming, .sustainedUptime => { s with attemptCount := 0 }
  | .streaming, .cleanEnd =>
      { s with state := .stopped, subs := terminateAll s.subs }
  | .backoff, .timerElapsed => { s with state := .connecting, pendingDelay := none }
  | _, _ => s

/-- Run the session machine over a list of events. -/
def runEvents (s : Session) (es : List Event) : Session :=
  es.foldl step s

/-- The initial session: idle, no attempts, no subscriptions. -/
def initSession (maxA : Nat) : Session :=
  { state := .idle, attemptCount := 0, maxAttempts := maxA, msgsReceived := 0,
    pendingDelay := none, subs := [], nextSubId := 0 }

/-- Number of non-terminated subscriptions in a list. -/
def activeCount (l : List Subscr) : Nat :=
  (l.filter (fun s => !s.terminated)).length

/- ### Health/Stats reporter (`printStats` of the optimized client) -/

/-- Stats reporting interval in ms (`STATS_INTERVAL_MS = 30000`); the client
registers `setInterval(printStats, STATS_INTERVAL_MS)` on startup. -/
def STATS_INTERVAL_MS : Nat := 30000

/-- The mutable stats counters of the optimized client: message count and
total size of the current interval, the per-type counters, and the time of
the last stats report (`lastStatsTime`). -/
structure StatsState where
  messageCount : Nat
  totalMessageSize : Nat
  transactionCount : Nat
  tradeCount : Nat
  transferCount : Nat
  orderCount : Nat
  poolEventCount : Nat
  balanceUpdateCount : Nat
  lastStatsTime : Nat
deriving DecidableEq, Repr

/-- Embedding of `printStats`: it reads the counters, emits one report to
the log (the report is represented by the snapshot of the counter values it
formats — the rendered text is presentation only), then resets every
per-interval counter to 0 and sets `lastStatsTime` to the current time.
The first component is the emitted report, the second the state after. -/
def printStats (now : Nat) (st : StatsState) : StatsState × StatsState :=
  (st,
   { messageCount := 0, totalMessageSize := 0, transactionCount := 0,
     tradeCount := 0, transferCount := 0, orderCount := 0,
     poolEventCount := 0, balanceUpdateCount := 0, lastStatsTime := now })

/- ### toBase58 with bounded cache -/

/-- Cache bound of the base58 cache (`MAX_CACHE_SIZE = 10000`). -/
def MAX_CACHE_SIZE : Nat := 10000

/-- One hexadecimal digit character, lowercase, as produced by
`Buffer.toString('hex')`. -/
def hexDigit (n : Nat) : Char :=
  if n < 10 then Char.ofNat (48 + n) else Char.ofNat (87 + n)

/-- Hex rendering of one byte; `Buffer.from` truncates each value mod 256. -/
def byteToHex (b : Nat) : String :=
  String.mk [hexDigit (b % 256 / 16), hexDigit (b % 256 % 16)]

/-- Embedding of `Buffer.from(bytes).toString('hex')`, the cache key. -/
def toHexKey (bytes : List Nat) : String :=
  String.join (bytes.map byteToHex)

/-- Lookup in the insertion-ordered cache (a JS `Map` keeps insertion
order; keys set after a miss are appended at the end). -/
def findCache : List (String × String) → String → Option String
  | [], _ => none
  | (k, v) :: rest, key => if k = key then some v else findCache rest key

/-- The cache update of `toBase58`'s hit-miss path: if the cache has reached
`MAX_CACHE_SIZE`, the oldest (first-inserted) entry is deleted, then the new
entry is appended. -/
def cacheInsert (c : List (String × String)) (k v : String) :
    List (String × String) :=
  (if MAX_CACHE_SIZE ≤ c.length then c.drop 1 else c) ++ [(k, v)]

/-- Embedding of `toBase58`.  The input is `none` for `null`/`undefined`
bytes; the base58 encoder (the external `bs58` library) is passed as a
function `enc` which either returns the encoding or throws (`Except.error`).
Returns the produced string together with the cache after the call. -/
def toBase58 (enc : List Nat → Except Unit String)
    (cache : List (String × String)) (bytes : Option (List Nat)) :
    String × List (String × String) :=
  match bytes with
  | none => ("undefined", cache)
  | some bs =>
    if bs.length = 0 then ("undefined", cache)
    else
      let cacheKey := toHexKey bs
      match findCache cache cacheKey with
      | some v => (v, cache)
      | none =>
        match enc bs with
        | .ok result => (result, cacheInsert cache cacheKey result)
        | .error _ => ("invalid_address", cache)

/- ### createRequest -/

/-- The `filters` section of the configuration: each list is absent
(`none`) or present with its addresses. -/
structure Filters where
  programs : Option (List String)
  pool : Option (List String)
  traders : Option (List String)
  signers : Option (List String)
deriving DecidableEq, Repr

/-- One filter group of the request: an address list. -/
structure FilterGroup where
  addresses : List String
deriving DecidableEq, Repr

/-- The request object `createRequest` builds: each filter key is present
(`some`) exactly when the corresponding `if` added it. -/
structure StreamRequest where
  program : Option FilterGroup
  pool : Option FilterGroup
  trader : Option FilterGroup
  signer : Option FilterGroup
deriving DecidableEq, Repr

/-- Embedding of `createRequest`: starting from the empty request, each
filter key is added iff the configured list is present (truthy) and
non-empty, carrying exactly the configured addresses. -/
def createRequest (f : Filters) : StreamRequest :=
  { program :=
      match f.programs with
      | some l => if 0 < l.length then some ⟨l⟩ else none
      | none => none,
    pool :=
      match f.pool with
      | some l => if 0 < l.length then some ⟨l⟩ else none
      | none => none,
    trader :=
      match f.traders with
      | some l => if 0 < l.length then some ⟨l⟩ else none
      | none => none,
    signer :=
      match f.signers with
      | some l => if 0 < l.length then some ⟨l⟩ else none
      | none => none }

/- ### Helper lemmas -/

theorem activeCount_terminateAll (l : List Subscr) : activeCount (terminateAll l) = 0 := by
  induction l with
  | nil => rfl
  | cons x rest ih => simp [terminateAll, activeCount, List.filter] at ih ⊢

theorem terminated_of_activeCount_zero (l : List Subscr) (h : activeCount l = 0) :
    ∀ x ∈ l, x.terminated = true := by
  intro x hx
  by_contra hterm
  have hmem : x ∈ l.filter (fun s => !s.terminated) := by
    simp [List.mem_filter, hx, hterm]
  have : 0 < activeCount l := by
    unfold activeCount
    exact List.length_pos.mpr (fun he => by simp [he] at hmem)
  omega

theorem step_stopped_eq (s : Session) (e : Event) (h : s.state = .stopped) :
    step s e = s := by
  obtain ⟨st, ac, ma, mr, pd, subs, nid⟩ := s
  simp only [Session.mk.injEq] at h ⊢
  subst h
  cases e <;> rfl

theorem step_failed_eq (s : Session) (e : Event) (h : s.state = .failed) :
    step s e = s := by
  obtain ⟨st, ac, ma, mr, pd, subs, nid⟩ := s
  simp only [Session.mk.injEq] at h ⊢
  subst h
  cases e <;> rfl

theorem runEvents_stopped (s : Session) (es : List Event) (h : s.state = .stopped) :
    runEvents s es = s := by
  induction es with
  | nil => rfl
  | cons e rest ih =>
    show runEvents (step s e) rest = s
    rw [step_stopped_eq s e h, ih]

theorem runEvents_failed (s : Session) (es : List Event) (h : s.state = .failed) :
    runEvents s es = s := by
  induction es with
  | nil => rfl
  | cons e rest ih =>
    show runEvents (step s e) rest = s
    rw [step_failed_eq s e h, ih]

theorem step_maxAttempts_eq (s : Session) (e : Event) :
    (step s e).maxAttempts = s.maxAttempts := by
  obtain ⟨st, ac, ma, mr, pd, subs, nid⟩ := s
  cases st <;> cases e <;>
    simp [step, handleFailure] <;>
    (try cases hc : classify _ <;> simp [hc]) <;>
    (try split) <;> rfl

theorem step_attempt_le (s : Session) (e : Event) (h : s.attemptCount ≤ s.maxAttempts) :
    (step s e).attemptCount ≤ s.maxAttempts := by
  obtain ⟨st, ac, ma, mr, pd, subs, nid⟩ := s
  simp only at h
  cases st <;> cases e <;>
    simp [step, handleFailure] <;>
    (try exact h) <;>
    (try cases hc : classify _ <;> simp [hc]) <;>
    (try split) <;> simp_all <;> omega

theorem step_attempt_mono (s : Session) (e : Event)
    (h1 : e ≠ .msgReceived) (h2 : e ≠ .sustainedUptime) :
    s.attemptCount ≤ (step s e).attemptCount := by
  obtain ⟨st, ac, ma, mr, pd, subs, nid⟩ := s
  cases st <;> cases e <;> (try simp at h1 h2) <;>
    simp [step, handleFailure] <;>
    (try cases hc : classify _ <;> simp [hc]) <;>
    (try split) <;> simp_all

/-- The subscription invariant: at most one subscription is active, and a
subscription can be active only while the session is streaming. -/
def SubInv (s : Session) : Prop :=
  activeCount s.subs ≤ 1 ∧ (s.state ≠ .streaming → activeCount s.subs = 0)

theorem subInv_init (maxA : Nat) : SubInv (initSession maxA) := by
  constructor <;> simp [initSession, activeCount]

theorem activeCount_append (a b : List Subscr) :
    activeCount (a ++ b) = activeCount a + activeCount b := by
  simp [activeCount, List.filter_append]

theorem activeCount_single_active (n : Nat) : activeCount [⟨n, false⟩] = 1 := rfl

theorem subInv_step (s : Session) (e : Event) (h : SubInv s) : SubInv (step s e) := by
  obtain ⟨h1, h2⟩ := h
  obtain ⟨st, ac, ma, mr, pd, subs, nid⟩ := s
  simp only [SubInv] at h1 h2 ⊢
  cases st <;> cases e <;>
    simp_all [step, handleFailure, activeCount_terminateAll, activeCount_append,
              activeCount_single_active] <;>
    (try cases hc : classify _ <;> simp [hc, activeCount_terminateAll]) <;>
    (try split) <;>
    simp [activeCount_terminateAll]

theorem subInv_run (s : Session) (es : List Event) (h : SubInv s) :
    SubInv (runEvents s es) := by
  induction es generalizing s with
  | nil => exact h
  | cons e rest ih => exact ih (step s e) (subInv_step s e h)

theorem findCache_append_of_none (a b : List (String × String)) (k : String)
    (h : findCache a k = none) : findCache (a ++ b) k = findCache b k := by
  induction a with
  | nil => simp
  | cons x rest ih =>
    obtain ⟨xk, xv⟩ := x
    by_cases hk : xk = k
    · simp [findCache, hk] at h
    · simp only [findCache, hk, if_false] at h
      simpa [findCache, hk] using ih h

theorem findCache_drop_of_none (c : List (String × String)) (k : String)
    (h : findCache c k = none) : findCache (c.drop 1) k = none := by
  cases c with
  | nil => simp [findCache]
  | cons x rest =>
    obtain ⟨xk, xv⟩ := x
    by_cases hk : xk = k
    · simp [findCache, hk] at h
    · simpa [findCache, hk] using h

theorem findCache_insert_self (c : List (String × String)) (k v : String)
    (h : findCache c k = none) : findCache (cacheInsert c k v) k = some v := by
  unfold cacheInsert
  split
  · rw [findCache_append_of_none _ _ _ (findCache_drop_of_none c k h)]
    simp [findCache]
  · rw [findCache_append_of_none _ _ _ h]
    simp [findCache]

/-- The scenario of claim C2: a transport that always fails retryably, under
`max_attempts = 3`: the initial open fails, then each of the three permitted
retries fails again. -/
def alwaysFailEvents : List Event :=
  [.start, .failure .unavailable, .timerElapsed, .failure .unavailable,
   .timerElapsed, .failure .unavailable, .timerElapsed, .failure .unavailable]

/- ### Claim theorems -/

/-- Claim C1: for every non-negative attempt and every jitter drawn from
`[0, jitter_bound)`, `delay_for attempt` lies in the half-open interval
`[min(initial_delay * 2^attempt, max_delay),
  min(initial_delay * 2^attempt, max_delay) + jitter_bound)`; in particular,
with the defaults (initial 1000 ms, max 60000 ms, jitter bound 1000 ms),
`delay_for 10` lies in `[60000, 61000)`. -/
theorem backoff_delay_interval
    (initialDelay maxDelay jitterBound attempt jitter : Nat)
    (h : jitter < jitterBound) :
    (min (initialDelay * 2 ^ attempt) maxDelay ≤
        delay_for initialDelay maxDelay attempt jitter ∧
      delay_for initialDelay maxDelay attempt jitter <
        min (initialDelay * 2 ^ attempt) maxDelay + jitterBound) ∧
    (jitter < JITTER_BOUND →
      60000 ≤ delay_for INITIAL_RECONNECT_DELAY MAX_RECONNECT_DELAY 10 jitter ∧
      delay_for INITIAL_RECONNECT_DELAY MAX_RECONNECT_DELAY 10 jitter < 61000) := by
  unfold delay_for INITIAL_RECONNECT_DELAY MAX_RECONNECT_DELAY JITTER_BOUND
  norm_num
  constructor
  · exact h
  · intro hj
    omega

/-- Witness for C1 at attempt 10 with jitter 500 under the defaults. -/
theorem backoff_delay_interval_witness :
    (500 : Nat) < 1000 ∧
    60000 ≤ delay_for INITIAL_RECONNECT_DELAY MAX_RECONNECT_DELAY 10 500 ∧
    delay_for INITIAL_RECONNECT_DELAY MAX_RECONNECT_DELAY 10 500 < 61000 :=
  ⟨by decide,
   (backoff_delay_interval 1000 60000 1000 10 500 (by decide)).2 (by decide)⟩

/-- Claim C2: with `max_attempts = 3` and a transport that always fails
retryably, the session passes through exactly three backoff-and-retry
cycles and then reaches the terminal `failed` state (final attempt count 3,
and `failed` absorbs every further event, so no 4th retry ever occurs); in
general a step never pushes `attemptCount` past `maxAttempts`. -/
theorem exhaustion_terminates :
    (List.scanl step (initSession 3) alwaysFailEvents).map Session.state =
      [.idle, .connecting, .backoff, .connecting, .backoff, .connecting,
       .backoff, .connecting, .failed] ∧
    (runEvents (initSession 3) alwaysFailEvents).attemptCount = 3 ∧
    (∀ e : Event,
      step (runEvents (initSession 3) alwaysFailEvents) e =
        runEvents (initSession 3) alwaysFailEvents) ∧
    (∀ (s : Session) (e : Event), s.attemptCount ≤ s.maxAttempts →
      (step s e).attemptCount ≤ (step s e).maxAttempts) := by
  refine ⟨by decide, by decide, ?_, ?_⟩
  · intro e
    exact step_failed_eq _ e (by decide)
  · intro s e hle
    rw [step_maxAttempts_eq]
    exact step_attempt_le s e hle

/-- Witness for C2's general attempt bound, at the initial session. -/
theorem exhaustion_terminates_witness :
    (initSession 3).attemptCount ≤ (initSession 3).maxAttempts ∧
    (step (initSession 3) Event.start).attemptCount ≤
      (step (initSession 3) Event.start).maxAttempts :=
  ⟨by decide, exhaustion_terminates.2.2.2 (initSession 3) .start (by decide)⟩

/-- Claim C3: from any connecting or streaming session, whatever the attempt
count or remaining budget, a single non-retryable error transitions the
session to terminal `failed` in one step, with no backoff timer armed, no
retry counted, and no further transition ever after. -/
theorem fatal_short_circuits (s : Session) (r : TerminationReason)
    (hstate : s.state = .connecting ∨ s.state = .streaming)
    (hfatal : classify r = .fatal) :
    (step s (.failure r)).state = .failed ∧
    (step s (.failure r)).pendingDelay = none ∧
    (step s (.failure r)).attemptCount = s.attemptCount ∧
    ∀ es, runEvents (step s (.failure r)) es = step s (.failure r) := by
  have hstep : step s (.failure r) =
      { s with state := .failed, subs := terminateAll s.subs, pendingDelay := none } := by
    obtain ⟨st, ac, ma, mr, pd, subs, nid⟩ := s
    dsimp only at hstate
    rcases hstate with h | h <;> subst h <;> simp [step, handleFailure, hfatal]
  refine ⟨by rw [hstep], by rw [hstep], by rw [hstep], fun es => ?_⟩
  exact runEvents_failed _ es (by rw [hstep])

/-- Witness for C3: an authentication failure in `connecting` at attempt 0
with budget 3 remaining immediately fails. -/
theorem fatal_short_circuits_witness :
    (step { initSession 3 with state := .connecting }
        (.failure .authenticationFailure)).state = .failed :=
  (fatal_short_circuits { initSession 3 with state := .connecting }
      .authenticationFailure (Or.inl rfl) rfl).1

/-- Claim C4: the classification function is total over all termination
reasons — every reason maps to `retryable` or `fatal` — and it returns
`retryable` exactly for the four transient transport conditions; every
reason it does not recognize (in particular any `other` reason) falls back
to `fatal`, and a fatally classified failure never moves the session into
`backoff` (no retry is triggered). -/
theorem classify_total_fail_closed :
    (∀ r : TerminationReason, classify r = .retryable ∨ classify r = .fatal) ∧
    (∀ r : TerminationReason, classify r = .retryable ↔
      (r = .connectionDropped ∨ r = .unavailable ∨ r = .timeout ∨ r = .reset)) ∧
    (∀ msg : String, classify (.other msg) = .fatal) ∧
    (∀ (s : Session) (r : TerminationReason), classify r = .fatal →
      (step s (.failure r)).state = .backoff → s.state = .backoff) := by
  refine ⟨fun r => by cases r <;> simp [classify],
          fun r => by cases r <;> simp [classify],
          fun msg => rfl, ?_⟩
  intro s r hf hb
  obtain ⟨st, ac, ma, mr, pd, subs, nid⟩ := s
  cases st <;> simp_all [step, handleFailure, hf]

/-- Witness for C4: an unrecognized reason is fatal, and delivering it to a
session already in backoff does not start a new backoff (the event is
ignored in that state, so the conclusion of the fail-closed conjunct is the
pre-existing backoff). -/
theorem classify_total_fail_closed_witness :
    classify (.other "boom") = .fatal ∧
    ({ initSession 3 with state := .backoff } : Session).state = .backoff :=
  ⟨classify_total_fail_closed.2.2.1 "boom",
   classify_total_fail_closed.2.2.2 { initSession 3 with state := .backoff }
     (.other "boom") rfl rfl⟩

/-- Claim C5: calling `stop` while the session is in `backoff` cancels the
pending backoff timer and transitions directly to `stopped`; after that no
event (in particular no timer elapse) ever causes a `connecting` attempt or
any transition at all; and from any non-`failed` state, `stop` lands in
`stopped`. -/
theorem stop_during_backoff (s : Session) (h : s.state = .backoff) :
    (step s .stop).state = .stopped ∧
    (step s .stop).pendingDelay = none ∧
    (∀ es, runEvents (step s .stop) es = step s .stop) ∧
    (∀ t : Session, t.state ≠ .failed → (step t .stop).state = .stopped) := by
  have hstep : step s .stop =
      { s with state := .stopped, subs := terminateAll s.subs, pendingDelay := none } := by
    obtain ⟨st, ac, ma, mr, pd, subs, nid⟩ := s
    dsimp only at h
    subst h
    rfl
  refine ⟨by rw [hstep], by rw [hstep],
          fun es => runEvents_stopped _ es (by rw [hstep]), ?_⟩
  intro t ht
  obtain ⟨st, ac, ma, mr, pd, subs, nid⟩ := t
  cases st <;> simp_all [step]

/-- Witness for C5 at a concrete backoff session with an armed timer. -/
theorem stop_during_backoff_witness :
    (step { initSession 3 with state := .backoff, pendingDelay := some 1000 }
        Event.stop).state = .stopped ∧
    (step { initSession 3 with state := .backoff, pendingDelay := some 1000 }
        Event.stop).pendingDelay = none :=
  ⟨(stop_during_backoff _ rfl).1, (stop_during_backoff _ rfl).2.1⟩

/-- Claim C6: `attemptCount` resets to 0 exactly on a qualifying success — a
received message or the minimum sustained uptime while streaming — and on
every other event it is non-decreasing; consequently a retryable failure
following a streaming period with a received message enters `backoff` with
`attemptCount = 1`, not the pre-reset value. -/
theorem attempt_count_reset (s : Session) (r : TerminationReason)
    (hstream : s.state = .streaming) (hretry : classify r = .retryable)
    (hbudget : 0 < s.maxAttempts) :
    (step s .msgReceived).attemptCount = 0 ∧
    (step s .sustainedUptime).attemptCount = 0 ∧
    (step (step s .msgReceived) (.failure r)).state = .backoff ∧
    (step (step s .msgReceived) (.failure r)).attemptCount = 1 ∧
    (∀ (t : Session) (e : Event), e ≠ .msgReceived → e ≠ .sustainedUptime →
      t.attemptCount ≤ (step t e).attemptCount) := by
  obtain ⟨st, ac, ma, mr, pd, subs, nid⟩ := s
  dsimp only at hstream hbudget
  subst hstream
  refine ⟨rfl, rfl, ?_, ?_, fun t e h1 h2 => step_attempt_mono t e h1 h2⟩ <;>
    simp [step, handleFailure, hretry, hbudget]

/-- Witness for C6: a streaming session that had already used 2 attempts
receives one message and then fails retryably; the new backoff starts at
attempt 1. -/
theorem attempt_count_reset_witness :
    (step (step { initSession 3 with state := .streaming, attemptCount := 2 }
        Event.msgReceived) (.failure .unavailable)).attemptCount = 1 ∧
    (step (step { initSession 3 with state := .streaming, attemptCount := 2 }
        Event.msgReceived) (.failure .unavailable)).state = .backoff :=
  ⟨(attempt_count_reset _ .unavailable rfl rfl (by decide)).2.2.2.1,
   (attempt_count_reset _ .unavailable rfl rfl (by decide)).2.2.1⟩

/-- Claim C7: in every reachable session state, at most one subscription is
non-terminated, and whenever the session is about to open a new subscription
(it is in `connecting`; subscriptions are only created on open success in
that state) every previously created subscription is already terminated. -/
theorem single_active_subscription (maxA : Nat) (es : List Event) :
    activeCount (runEvents (initSession maxA) es).subs ≤ 1 ∧
    ((runEvents (initSession maxA) es).state = .connecting →
      ∀ x ∈ (runEvents (initSession maxA) es).subs, x.terminated = true) := by
  obtain ⟨h1, h2⟩ := subInv_run (initSession maxA) es (subInv_init maxA)
  refine ⟨h1, fun hc => terminated_of_activeCount_zero _ (h2 ?_)⟩
  simp [hc]

/-- Witness for C7 on a run that reconnects once: start, fail retryably,
timer elapses back into connecting. -/
theorem single_active_subscription_witness :
    activeCount (runEvents (initSession 3)
      [.start, .openSuccess, .failure .unavailable, .timerElapsed]).subs ≤ 1 ∧
    (∀ x ∈ (runEvents (initSession 3)
      [.start, .openSuccess, .failure .unavailable, .timerElapsed]).subs,
      x.terminated = true) :=
  ⟨(single_active_subscription 3
      [.start, .openSuccess, .failure .unavailable, .timerElapsed]).1,
   (single_active_subscription 3
      [.start, .openSuccess, .failure .unavailable, .timerElapsed]).2 (by decide)⟩

/-- A concrete stats state mid-interval: 5 messages seen, some per-type
counts, last report at time 1000. -/
def statsExample : StatsState :=
  { messageCount := 5, totalMessageSize := 2048, transactionCount := 1,
    tradeCount := 2, transferCount := 1, orderCount := 1, poolEventCount := 0,
    balanceUpdateCount := 0, lastStatsTime := 1000 }

/-- Claim C8 (counterexample): producing a report is not read-only —
`printStats` zeroes the message counters it reads: after the snapshot at
time 31000, the message count is no longer 5. -/
theorem printStats_not_readonly :
    (printStats 31000 statsExample).2.messageCount ≠ statsExample.messageCount ∧
    (printStats 31000 statsExample).2 ≠ statsExample := by
  decide

/-- Claim C8 (amended): the periodic snapshot (interval fixed at 30000 ms)
emits exactly the counter values it read and then resets every per-interval
counter to 0 and `lastStatsTime` to the current time, touching nothing
else. -/
theorem printStats_resets_counters (now : Nat) (st : StatsState) :
    STATS_INTERVAL_MS = 30000 ∧
    (printStats now st).1 = st ∧
    (printStats now st).2 =
      { messageCount := 0, totalMessageSize := 0, transactionCount := 0,
        tradeCount := 0, transferCount := 0, orderCount := 0,
        poolEventCount := 0, balanceUpdateCount := 0, lastStatsTime := now } :=
  ⟨rfl, rfl, rfl⟩

/-- Claim C9: `toBase58` is total: `null`/`undefined` or empty byte input
yields the string `undefined` and leaves the cache unchanged; when the
encoder throws, the result is `invalid_address`; otherwise the result is
the encoder's base58 encoding of the bytes; and a repeated call with the
same bytes returns the same string, cached or not. -/
theorem toBase58_total (enc : List Nat → Except Unit String)
    (cache : List (String × String)) (bs : List Nat) (r : String) :
    toBase58 enc cache none = ("undefined", cache) ∧
    toBase58 enc cache (some []) = ("undefined", cache) ∧
    (bs ≠ [] → findCache cache (toHexKey bs) = none → enc bs = .error () →
      (toBase58 enc cache (some bs)).1 = "invalid_address") ∧
    (bs ≠ [] → findCache cache (toHexKey bs) = none → enc bs = .ok r →
      (toBase58 enc cache (some bs)).1 = r) ∧
    (∀ b : Option (List Nat),
      (toBase58 enc cache b).1 = (toBase58 enc (toBase58 enc cache b).2 b).1) := by
  refine ⟨rfl, rfl, ?_, ?_, ?_⟩
  · intro hne hfind herr
    simp [toBase58, List.length_eq_zero, hne, hfind, herr]
  · intro hne hfind hok
    simp [toBase58, List.length_eq_zero, hne, hfind, hok]
  · intro b
    match b with
    | none => rfl
    | some l =>
      by_cases hl : l.length = 0
      · simp [toBase58, hl]
      · cases hfind : findCache cache (toHexKey l) with
        | some v => simp [toBase58, hl, hfind]
        | none =>
          cases henc : enc l with
          | error u => simp [toBase58, hl, hfind, henc]
          | ok res =>
            simp [toBase58, hl, hfind, henc,
                  findCache_insert_self _ _ _ hfind]

/-- Witness for C9 with a one-byte input, an empty cache and an encoder that
returns a fixed encoding. -/
theorem toBase58_total_witness :
    (toBase58 (fun _ => Except.ok "abc") [] (some [1])).1 = "abc" ∧
    toBase58 (fun _ => Except.ok "abc") [] none = ("undefined", []) :=
  ⟨(toBase58_total (fun _ => Except.ok "abc") [] [1] "abc").2.2.2.1
      (by decide) rfl rfl,
   (toBase58_total (fun _ => Except.ok "abc") [] [1] "abc").1⟩

theorem groupField_iff (o : Option (List String)) (l : List String) :
    (match o with
      | some l2 => if 0 < l2.length then some (⟨l2⟩ : FilterGroup) else none
      | none => none) = some (⟨l⟩ : FilterGroup) ↔ (o = some l ∧ l ≠ []) := by
  cases o with
  | none => simp
  | some l2 =>
    by_cases h : 0 < l2.length
    · simp only [if_pos h, Option.some.injEq, FilterGroup.mk.injEq]
      constructor
      · rintro rfl
        exact ⟨rfl, by rintro rfl; simp at h⟩
      · rintro ⟨he, _⟩
        cases he
        rfl
    · have hnil : l2 = [] := by
        cases l2 with
        | nil => rfl
        | cons a t => simp at h
      subst hnil
      simp

/-- Claim C10: the request built by `createRequest` contains a filter group
(program, pool, trader, signer) with address list `l` iff the corresponding
configured filter list is exactly `l` and non-empty; otherwise the key is
absent. -/
theorem createRequest_filters (f : Filters) (l : List String) :
    ((createRequest f).program = some ⟨l⟩ ↔ f.programs = some l ∧ l ≠ []) ∧
    ((createRequest f).pool = some ⟨l⟩ ↔ f.pool = some l ∧ l ≠ []) ∧
    ((createRequest f).trader = some ⟨l⟩ ↔ f.traders = some l ∧ l ≠ []) ∧
    ((createRequest f).signer = some ⟨l⟩ ↔ f.signers = some l ∧ l ≠ []) :=
  ⟨groupField_iff f.programs l, groupField_iff f.pool l,
   groupField_iff f.traders l, groupField_iff f.signers l⟩

/-- Witness for C10: a configuration filtering one program and nothing
else yields a request with exactly the program group. -/
theorem createRequest_filters_witness :
    (createRequest ⟨some ["a"], none, none, none⟩).program = some ⟨["a"]⟩ ∧
    (createRequest ⟨some ["a"], none, none, none⟩).pool = none :=
  ⟨(createRequest_filters ⟨some ["a"], none, none, none⟩ ["a"]).1.mpr
      ⟨rfl, by decide⟩,
   rfl⟩
